import Mathlib

/-
Verification of the adaptive career-page crawling and job-extraction
subsystem of the recruiter-job-tracker repository.

Shallow embedding conventions:
- Python strings are modelled as lists of characters (`Str`); Python string
  methods (`lower`, `strip`, `startswith`, `endswith`, `in`, `split`,
  `replace`, `islower`, `isupper`, `title`) are re-implemented below over
  `Str` with their ASCII semantics.
- Browser/network side effects are modelled by explicit environment
  records holding the outcome of each external operation; code paths with
  `try/except` become case analysis on those outcomes.
-/

namespace Crawler

/-- Python strings, modelled as lists of characters (one element per code
point, matching Python indexing and `len`). -/
abbrev Str := List Char

/-- Conversion from a Lean string literal to the model type. -/
def str (s : String) : Str := s.toList

/-- ASCII lower-casing of one character, as done by `str.lower()` on the
ASCII fragment used by the keyword lexicons of the source. -/
def lowerChar (c : Char) : Char :=
  if 'A' ≤ c ∧ c ≤ 'Z' then Char.ofNat (c.toNat + 32) else c

/-- ASCII upper-casing of one character. -/
def upperChar (c : Char) : Char :=
  if 'a' ≤ c ∧ c ≤ 'z' then Char.ofNat (c.toNat - 32) else c

/-- Python `s.lower()`. -/
def lowerL (s : Str) : Str := s.map lowerChar

/-- Python `needle in hay` (substring containment). -/
def hasSub (hay needle : Str) : Bool :=
  match hay with
  | [] => needle.isEmpty
  | c :: t => needle.isPrefixOf (c :: t) || hasSub t needle

/-- Python `s.startswith(p)`. -/
def strStarts (s p : Str) : Bool := p.isPrefixOf s

/-- Python `s.endswith(p)`. -/
def strEnds (s p : Str) : Bool := p.isSuffixOf s

/-- Whitespace test used by Python `str.strip()` (ASCII whitespace). -/
def isWs (c : Char) : Bool :=
  c == ' ' || c == '\t' || c == '\n' || c == '\r' ||
  c == Char.ofNat 11 || c == Char.ofNat 12

/-- Python `s.strip()`. -/
def pyStrip (s : Str) : Str :=
  ((s.dropWhile isWs).reverse.dropWhile isWs).reverse

/-- Python `s.split(sep)` for a one-character separator. -/
def splitOnCh (sep : Char) : Str → List Str
  | [] => [[]]
  | c :: rest =>
    match splitOnCh sep rest with
    | [] => [[]]
    | h :: t => if c == sep then [] :: h :: t else (c :: h) :: t

/-- Python last path segment, `split` on slash then last element (the
split of a string is never empty). -/
def lastSeg (s : Str) : Str := (splitOnCh '/' s).getLastD []

/-- Worker for `replaceAll`; the fuel starts at the string length and
dominates it throughout, so it never runs out. -/
def replaceAllGo : Nat → Str → Str → Str → Str
  | 0, s, _, _ => s
  | _ + 1, [], _, _ => []
  | fuel + 1, c :: rest, pat, sub =>
    if pat.isPrefixOf (c :: rest) && !pat.isEmpty then
      sub ++ replaceAllGo fuel (rest.drop (pat.length - 1)) pat sub
    else
      c :: replaceAllGo fuel rest pat sub

/-- Python `s.replace(pat, sub)` for a nonempty pattern (all occurrences,
scanned left to right). -/
def replaceAll (s pat sub : Str) : Str := replaceAllGo s.length s pat sub

/-- Cased character (ASCII letter), as used by Python `islower`/`isupper`. -/
def isCased (c : Char) : Bool :=
  ('a' ≤ c ∧ c ≤ 'z' : Bool) || ('A' ≤ c ∧ c ≤ 'Z' : Bool)

/-- Python `s.islower()`: some cased character, and no upper-case one. -/
def pyIsLower (s : Str) : Bool :=
  s.any isCased && s.all (fun c => !('A' ≤ c ∧ c ≤ 'Z' : Bool))

/-- Python `s.isupper()`: some cased character, and no lower-case one. -/
def pyIsUpper (s : Str) : Bool :=
  s.any isCased && s.all (fun c => !('a' ≤ c ∧ c ≤ 'z' : Bool))

/-- Worker for `pyTitle`: the flag records whether the previous character
was a letter. -/
def pyTitleGo : Bool → Str → Str
  | _, [] => []
  | prevAlpha, c :: cs =>
    let isA := isCased c
    let c' := if isA then (if prevAlpha then lowerChar c else upperChar c) else c
    c' :: pyTitleGo isA cs

/-- Python `s.title()` (ASCII): upper-case every letter that follows a
non-letter, lower-case the rest. -/
def pyTitle (s : Str) : Str := pyTitleGo false s

/-
Data model of `playwright_job_navigator.py`: a discovered job record
(`{"job_title": ..., "job_url": ..., "description": ...}`) and a DOM
anchor (`href` attribute and visible inner text). A missing `href`
attribute (`None` in Python) is modelled as the empty string, which the
source treats identically (`if not href`).
-/

structure Job where
  job_title : Str
  job_url : Str
  description : Str
deriving DecidableEq

structure Anchor where
  href : Str
  text : Str
deriving DecidableEq

/-
Model of `urllib.parse.urljoin(base, href)` restricted to the shapes the
crawler meets: absolute URLs and scheme-like hrefs are returned unchanged,
protocol-relative hrefs inherit the base scheme, root-relative hrefs
resolve against the base origin, other relative hrefs against the base
directory.
-/

/-- Join path segments back with a separator character. -/
def joinCh (sep : Char) : List Str → Str
  | [] => []
  | [x] => x
  | x :: y :: t => x ++ sep :: joinCh sep (y :: t)

/-- Scheme of a URL, including the trailing colon (`https:`). -/
def schemeOf (s : Str) : Str := s.takeWhile (fun c => !(c == ':')) ++ [':']

/-- Origin of a URL (`https://host`). -/
def originOf (base : Str) : Str := joinCh '/' ((splitOnCh '/' base).take 3)

/-- Directory of a URL (everything up to and including the last slash). -/
def dirOf (base : Str) : Str :=
  let parts := splitOnCh '/' base
  if parts.length ≤ 1 then base else joinCh '/' parts.dropLast ++ ['/']

/-- Model of `urllib.parse.urljoin` as used by `_extract_job_links`. -/
def urljoin (base href : Str) : Str :=
  if href.isEmpty then base
  else if strStarts href (str "http://") || strStarts href (str "https://") ||
      strStarts href (str "mailto:") || strStarts href (str "javascript:") then href
  else if strStarts href (str "//") then schemeOf base ++ href
  else if strStarts href (str "/") then originOf base ++ href
  else dirOf base ++ href

/-
`PlaywrightJobNavigator` classifier lexicons, copied from the source.
-/

/-- External ATS domains from `_is_external_job_board`. -/
def external_boards : List Str :=
  [str "greenhouse.io", str "lever.co", str "workdayjobs.com", str "myworkdayjobs.com",
   str "paycomonline.net", str "icims.com", str "ultipro.com", str "bamboohr.com",
   str "jobvite.com", str "smartrecruiters.com", str "taleo.net", str "breezy.hr",
   str "workable.com", str "recruitee.com", str "personio.de", str "greenhouse.com",
   str "ashbyhq.com", str "comeet.com", str "jazz.co", str "applytojob.com",
   str "recruiting.paylocity.com", str "recruiting.ultipro.com"]

/-- Document extensions from `_is_document_link`. -/
def doc_extensions : List Str := [str ".pdf", str ".doc", str ".docx", str ".rtf"]

/-- Job keywords for document link text, from `_is_job_document`. -/
def doc_job_keywords : List Str :=
  [str "director", str "manager", str "engineer", str "designer", str "analyst",
   str "lead", str "senior"]

/-- Job URL path patterns from `_is_job_link`. -/
def job_url_patterns : List Str :=
  [str "/job/", str "/jobs/", str "/career/", str "/careers/", str "/position/",
   str "/positions/", str "/opening/", str "/openings/", str "/vacancy/",
   str "/vacancies/", str "/role/", str "/roles/", str "/opportunity/",
   str "/opportunities/", str "/hiring/", str "/apply/"]

/-- Job title keywords for link text, from `_is_job_link`. -/
def job_keywords : List Str :=
  [str "engineer", str "developer", str "manager", str "director", str "analyst",
   str "specialist", str "coordinator", str "lead", str "senior", str "junior",
   str "associate", str "head of", str "designer", str "architect", str "consultant",
   str "representative", str "executive", str "scientist", str "researcher",
   str "technician", str "administrator", str "officer"]

/-- Navigation exclusion keywords from `_is_job_link`. -/
def exclude_keywords : List Str :=
  [str "home", str "about", str "contact", str "blog", str "news", str "all jobs",
   str "view all", str "search", str "filter", str "category", str "department",
   str "location", str "apply now", str "learn more", str "read more", str "sign up",
   str "register", str "login", str "logout"]

/-- Model of `PlaywrightJobNavigator._is_external_job_board`. -/
def isExternalJobBoard (url : Str) : Bool :=
  external_boards.any (fun board => hasSub (lowerL url) board)

/-- Model of `PlaywrightJobNavigator._is_document_link`. -/
def isDocumentLink (url : Str) : Bool :=
  doc_extensions.any (fun ext => strEnds (lowerL url) ext)

/-- Model of `PlaywrightJobNavigator._is_job_document`. -/
def is_job_document (text : Str) : Bool :=
  doc_job_keywords.any (fun k => hasSub (lowerL text) k)

/-- Identifier test on the final path segment of the href, from `_is_job_link`:
`any(char.isdigit() for char in href.split('/')[-1]) or
len(href.split('/')[-1]) > 10`. -/
def has_identifier (href : Str) : Bool :=
  (lastSeg href).any Char.isDigit || decide (10 < (lastSeg href).length)

/-- Exclusion test from `_is_job_link`: the navigational-phrase lexicon is
only consulted when the text is shorter than 50 characters
(`any(keyword in text_lower for keyword in exclude_keywords if len(text) < 50)`). -/
def is_excluded (text : Str) : Bool :=
  if text.length < 50 then exclude_keywords.any (fun k => hasSub (lowerL text) k)
  else false

/-- Model of `PlaywrightJobNavigator._is_job_link` (the third argument `full_url` is
accepted but unused by the source as well). -/
def is_job_link (href text _full : Str) : Bool :=
  if job_url_patterns.any (fun p => hasSub (lowerL href) p) && has_identifier href then
    true
  else if job_keywords.any (fun k => hasSub (lowerL text) k) && !is_excluded text &&
      decide (10 < text.length) then
    true
  else
    false

/-- Title-prefix lexicon from `_extract_title_from_text`. -/
def title_pfxs : List Str :=
  [str "apply for", str "apply to", str "apply:", str "view", str "see",
   str "learn more about", str "read more:", str "open position:", str "job:",
   str "role:", str "position:"]

/-- Title-suffix lexicon from `_extract_title_from_text`. -/
def title_sfxs : List Str :=
  [str " - apply", str " - view", str " - learn more", str " - read more"]

/-- Model of `PlaywrightJobNavigator._extract_title_from_text`. Faithful to the
source, including the fact that `title_lower` is computed once from the
stripped input and not refreshed after the prefix is removed. -/
def extract_title_from_text (text : Str) : Str :=
  let title0 := pyStrip text
  let tl := lowerL title0
  let title1 :=
    match title_pfxs.find? (fun p => strStarts tl p) with
    | some p => pyStrip (title0.drop p.length)
    | none => title0
  let title2 :=
    match title_sfxs.find? (fun sfx => strEnds tl sfx) with
    | some sfx => pyStrip (title1.take (title1.length - sfx.length))
    | none => title1
  if pyIsLower title2 || pyIsUpper title2 then pyTitle title2 else title2

/-
The anchor-scanning loop of `PlaywrightJobNavigator._extract_job_links`
(lines 373-431). `_check_for_modal` returns its `default_url` argument
unchanged, so it is inlined as the identity. The loop keeps a `seen_urls`
set, modelled as the list of URLs added so far.
-/

/-- The description field used for non-document candidates:
`text[:200] if len(text) > 50 else ""`. -/
def descOf (text : Str) : Str :=
  if decide (50 < text.length) then text.take 200 else []

/-- One pass over the remaining anchors with the current `seen_urls`
(`text` is the stripped inner text, `full` the resolved absolute URL). -/
def extractLoop (base : Str) (seen : List Str) : List Anchor → List Job
  | [] => []
  | a :: rest =>
    if a.href.isEmpty || strStarts a.href (str "#") ||
        strStarts a.href (str "javascript:") then
      extractLoop base seen rest
    else if strStarts a.href (str "mailto:") then
      extractLoop base seen rest
    else if seen.contains (urljoin base a.href) then
      extractLoop base seen rest
    else if isDocumentLink (urljoin base a.href) then
      if is_job_document (pyStrip a.text) then
        ⟨extract_title_from_text (pyStrip a.text), urljoin base a.href,
          str "PDF/Document"⟩ ::
          extractLoop base (urljoin base a.href :: seen) rest
      else
        extractLoop base seen rest
    else if isExternalJobBoard (urljoin base a.href) then
      ⟨extract_title_from_text (pyStrip a.text), urljoin base a.href,
        descOf (pyStrip a.text)⟩ ::
        extractLoop base (urljoin base a.href :: seen) rest
    else if is_job_link a.href (pyStrip a.text) (urljoin base a.href) then
      ⟨extract_title_from_text (pyStrip a.text), urljoin base a.href,
        descOf (pyStrip a.text)⟩ ::
        extractLoop base (urljoin base a.href :: seen) rest
    else
      extractLoop base seen rest

/-- Merge step for aggregator jobs (lines 368-371: append if the URL is
unseen). -/
def mergeAggregator (acc : List Job × List Str) (j : Job) : List Job × List Str :=
  if acc.2.contains j.job_url then acc else (acc.1 ++ [j], j.job_url :: acc.2)

/-- Model of `PlaywrightJobNavigator._extract_job_links`. The first two extraction
strategies (`_find_expandable_jobs` and `_extract_aggregator_jobs`) drive
the live browser (clicking elements, regex scans of rendered text), so
their outputs enter this model as the `expandable` and `aggregator`
arguments; the merging and the anchor loop (lines 352-433) are embedded
directly. -/
def extract_job_links (expandable aggregator : List Job) (base : Str)
    (anchors : List Anchor) : List Job :=
  let seen0 := expandable.map (fun j => j.job_url)
  let merged := aggregator.foldl mergeAggregator (expandable, seen0)
  merged.1 ++ extractLoop base merged.2 anchors

/-
Model of `PlaywrightJobNavigator.find_job_urls` (lines 43-112).

The browser session is summarised by a `PageModel`: the post-navigation
URL, the outcome of the body inner-text call (`none` when the call
raises; `_check_no_jobs` swallows that and reports `False`), the
extraction outcome inside each embedded iframe, the outputs of the two
browser-driven extraction strategies, and the anchors present in the DOM
when `_extract_job_links` finally runs. The interaction steps
(`_handle_infinite_scroll`, `_click_all_tabs`, ...) swallow their own
exceptions in the source; their effect on the DOM is already reflected in
the final `anchors`, and the model records how often the scroll and tab
steps were invoked.
-/

/-- No-jobs phrase lexicon from `_check_no_jobs`. -/
def no_jobs_indicators : List Str :=
  [str "no current openings", str "no open positions", str "not hiring",
   str "check back later", str "no positions available", str "no vacancies",
   str "currently no openings", str "no jobs at this time",
   str "no opportunities available", str "come back soon"]

structure PageModel where
  finalUrl : Str
  bodyText : Option Str
  iframeResults : List (Option (List Job))
  expandable : List Job
  aggregator : List Job
  anchors : List Anchor
deriving DecidableEq

/-- Browser environment for one `find_job_urls` call: whether the
playwright import succeeds, whether launch/navigation succeed (an
exception there is caught by the outer handler), and the page state. -/
structure NavEnv where
  installed : Bool
  gotoOk : Bool
  page : PageModel
deriving DecidableEq

/-- Model of `PlaywrightJobNavigator._check_no_jobs`: lower-cased body text scanned
for the indicator lexicon; any exception yields `False`. -/
def check_no_jobs (p : PageModel) : Bool :=
  match p.bodyText with
  | none => false
  | some t => no_jobs_indicators.any (fun ind => hasSub (lowerL t) ind)

/-- Model of `PlaywrightJobNavigator._check_iframes`: first of the first three
iframes whose extraction yields a nonempty job list (frames without a
content frame or that raise are skipped). -/
def firstFrameJobs : List (Option (List Job)) → List Job
  | [] => []
  | none :: rest => firstFrameJobs rest
  | some js :: rest => if js.isEmpty then firstFrameJobs rest else js

def check_iframes (p : PageModel) : List Job :=
  firstFrameJobs (p.iframeResults.take 3)

/-- Python exceptions escaping the body of `find_job_urls`. -/
inductive PyErr where
  | importError
  | navError
deriving DecidableEq

/-- Observables of one crawl: the returned list, whether the no-jobs
short-circuit fired, and how often `_handle_infinite_scroll` and
`_click_all_tabs` were invoked. -/
structure CrawlOutcome where
  jobs : List Job
  no_jobs_detected : Bool
  scrollCount : Nat
  tabCount : Nat
deriving DecidableEq

/-- Body of `find_job_urls` inside the outer `try` (lines 44-105): import,
launch and navigation may raise; then redirect capture, the no-jobs
short-circuit, the iframe check, the interaction steps, and extraction. -/
def crawl_body (env : NavEnv) : Except PyErr CrawlOutcome :=
  if env.installed = false then Except.error PyErr.importError
  else if env.gotoOk = false then Except.error PyErr.navError
  else
    let base := env.page.finalUrl
    if check_no_jobs env.page then
      Except.ok ⟨[], true, 0, 0⟩
    else
      match check_iframes env.page with
      | j :: js => Except.ok ⟨j :: js, false, 0, 0⟩
      | [] =>
        Except.ok ⟨extract_job_links env.page.expandable env.page.aggregator base
          env.page.anchors, false, 1, 1⟩

/-- Model of `PlaywrightJobNavigator.find_job_urls`: the `except ImportError` and
`except Exception` handlers both return the empty list. -/
def find_job_urls (env : NavEnv) : List Job :=
  match crawl_body env with
  | Except.ok r => r.jobs
  | Except.error _ => []

/-- The same function with the handler made explicit in the type: an
escaping exception would surface as `Except.error`. -/
def find_job_urls_handled (env : NavEnv) : Except PyErr (List Job) :=
  match crawl_body env with
  | Except.ok r => Except.ok r.jobs
  | Except.error _ => Except.ok []

/-
Model of `scrape_website.py` (`WebsiteScraper`).

`scrape_http` / `scrape_playwright` depend on the network only through the
outcome of one retrieval per URL; the environment maps each URL to that
outcome. A successful retrieval carries the markdown produced from the
response by the (deterministic) strip-and-convert post-processing, since
the 500-character threshold is applied to that markdown.
-/

inductive HttpOutcome where
  | timeout
  | reqError
  | ok (content : Str)
deriving DecidableEq

inductive PwOutcome where
  | err
  | ok (content : Str)
deriving DecidableEq

structure Net where
  get : Str → HttpOutcome
  pw : Str → PwOutcome
  pwInstalled : Bool

structure ScrapeResult where
  success : Bool
  content : Option Str
  method : Str
deriving DecidableEq

/-- Model of `WebsiteScraper.normalize_url`. -/
def normalize_url (url : Str) : Str :=
  let u := pyStrip url
  if strStarts u (str "http://") || strStarts u (str "https://") then u
  else str "https://" ++ u

/-- Body of `WebsiteScraper.scrape_http` after URL normalization
(lines 46-97). A timeout returns failure immediately; any other request
error triggers one retry with `://www.` replaced by `://` — but only when
`www.` occurs in the URL. Content below 500 characters is failure. -/
def scrape_http_core (net : Net) (u : Str) : ScrapeResult :=
  match net.get u with
  | HttpOutcome.ok content =>
    if content.length < 500 then ⟨false, none, str "http"⟩
    else ⟨true, some content, str "http"⟩
  | HttpOutcome.timeout => ⟨false, none, str "http"⟩
  | HttpOutcome.reqError =>
    if hasSub u (str "www.") then
      match net.get (replaceAll u (str "://www.") (str "://")) with
      | HttpOutcome.ok c2 =>
        if 500 ≤ c2.length then ⟨true, some c2, str "http"⟩
        else ⟨false, none, str "http"⟩
      | _ => ⟨false, none, str "http"⟩
    else ⟨false, none, str "http"⟩

/-- Model of `WebsiteScraper.scrape_http` (lines 38-97). -/
def scrape_http (net : Net) (url : Str) : ScrapeResult :=
  scrape_http_core net (normalize_url url)

/-- Body of `WebsiteScraper.scrape_playwright` after URL normalization
(lines 107-170): same shape as the HTTP stage, with a missing playwright
install failing outright and any render exception triggering the same
www-stripping retry. -/
def scrape_playwright_core (net : Net) (u : Str) : ScrapeResult :=
  if net.pwInstalled = false then ⟨false, none, str "playwright"⟩
  else
    match net.pw u with
    | PwOutcome.ok content =>
      if content.length < 500 then ⟨false, none, str "playwright"⟩
      else ⟨true, some content, str "playwright"⟩
    | PwOutcome.err =>
      if hasSub u (str "www.") then
        match net.pw (replaceAll u (str "://www.") (str "://")) with
        | PwOutcome.ok c2 =>
          if 500 ≤ c2.length then ⟨true, some c2, str "playwright"⟩
          else ⟨false, none, str "playwright"⟩
        | PwOutcome.err => ⟨false, none, str "playwright"⟩
      else ⟨false, none, str "playwright"⟩

/-- Model of `WebsiteScraper.scrape_playwright` (lines 99-170). -/
def scrape_playwright (net : Net) (url : Str) : ScrapeResult :=
  scrape_playwright_core net (normalize_url url)

/-- The fetch strategy chain of `WebsiteScraper.scrape` /
`scrape_url_content`: HTTP, then playwright, then Bright Data (which the
source never implements and which always fails). -/
def scrape_chain (net : Net) (url : Str) : ScrapeResult :=
  let r1 := scrape_http net url
  if r1.success && r1.content.isSome then r1
  else
    let r2 := scrape_playwright net url
    if r2.success && r2.content.isSome then r2
    else ⟨false, none, str "bright_data"⟩

/-
Model of `extract_jobs_from_website.py` (`JobExtractor`).

Company dictionaries become records; a missing or empty `careers_url` /
`company_url` key is the empty string (Python `or` treats both alike).
The Playwright navigator and the AI extraction collaborator are external
to this function and enter as environment oracles; the scraping fallback
chain reuses the `WebsiteScraper` model above.
-/

structure Company where
  name : Str
  careers_url : Str
  company_url : Str
  jobs : List Job
  job_count : Nat
deriving DecidableEq

structure ExtractEnv where
  navJobs : Str → Str → List Job
  aiJobs : Str → Str → List Job

/-- Fallback URL choice, modelling the Python expression
`company.get("careers_url") or company.get("company_url")`. -/
def effectiveUrl (c : Company) : Str :=
  if c.careers_url.isEmpty then c.company_url else c.careers_url

/-- The validity filter of `JobExtractor._extract_jobs_with_ai`
(lines 131-139): keep only jobs with a title longer than 3 characters and
an `http...` URL that is neither empty nor `mailto:`. -/
def ai_filter (js : List Job) : List Job :=
  js.filter (fun j =>
    !j.job_title.isEmpty && decide (3 < j.job_title.length) &&
    !(j.job_url.isEmpty || strStarts j.job_url (str "mailto:") ||
      !strStarts j.job_url (str "http")))

/-- Processing of one company inside
`JobExtractor.extract_jobs_from_companies` (lines 33-87). `none` means the
company is not appended to the result list — which the source does both
when every fetch stage fails and when a fetched page yields no jobs. -/
def process_company (env : ExtractEnv) (net : Net) (c : Company) : Option Company :=
  let url := effectiveUrl c
  if url.isEmpty then none
  else
    let jobs0 := env.navJobs url c.name
    let jobs1 :=
      if jobs0.isEmpty then jobs0
      else jobs0.filter (fun j =>
        !j.job_url.isEmpty && !strStarts j.job_url (str "mailto:"))
    if !jobs1.isEmpty then
      some { c with jobs := jobs1, job_count := jobs1.length }
    else
      let r1 := scrape_http net url
      let content :=
        if r1.success && r1.content.isSome then r1.content
        else
          let r2 := scrape_playwright net url
          if r2.success && r2.content.isSome then r2.content else none
      match content with
      | none => none
      | some body =>
        let jobs2 := ai_filter (env.aiJobs body c.name)
        if !jobs2.isEmpty then
          some { c with jobs := jobs2, job_count := jobs2.length }
        else none

/-- Model of `JobExtractor.extract_jobs_from_companies`. -/
def extract_jobs_from_companies (env : ExtractEnv) (net : Net)
    (cs : List Company) : List Company :=
  cs.filterMap (process_company env net)

/-
Auxiliary lemmas about the string primitives.
-/

/-- A prefix of `q` is a prefix of `q ++ r`. -/
lemma isPrefixOf_append (p q r : Str) (h : p.isPrefixOf q = true) :
    p.isPrefixOf (q ++ r) = true := by
  rw [List.isPrefixOf_iff_prefix] at h ⊢
  exact h.trans (List.prefix_append q r)

/-- Lists whose heads differ do not begin with each other. -/
lemma headNe_not_isPrefixOf (x y : Char) (p l : Str) (h : (x == y) = false) :
    (x :: p).isPrefixOf (y :: l) = false := by
  simp [List.isPrefixOf]
  intro hxy
  simp [hxy] at h

/-- The empty needle is a substring of anything. -/
lemma hasSub_nil (r : Str) : hasSub r [] = true := by
  induction r with
  | nil => rfl
  | cons c t ih => simp [hasSub, List.isPrefixOf]

/-- A substring of `q` is a substring of `q ++ r`. -/
lemma hasSub_append (q r n : Str) (h : hasSub q n = true) :
    hasSub (q ++ r) n = true := by
  induction q with
  | nil =>
    simp [hasSub] at h
    simp [h, hasSub_nil]
  | cons c t ih =>
    simp only [hasSub, Bool.or_eq_true] at h
    rcases h with h | h
    · simp only [List.cons_append, hasSub, Bool.or_eq_true]
      exact Or.inl (isPrefixOf_append n (c :: t) r h)
    · simp only [List.cons_append, hasSub, Bool.or_eq_true]
      exact Or.inr (ih h)

/-
Claim theorems.
-/

/-- C9: title normalization applied to "Apply for Senior Engineer - View"
returns exactly "Senior Engineer" — the "Apply for" prefix and the
" - View" suffix are both stripped. -/
theorem c9_title_round_trip :
    extract_title_from_text (str "Apply for Senior Engineer - View") =
      str "Senior Engineer" := by decide

/-- Success of the HTTP stage body implies the 500-character threshold. -/
lemma scrape_http_core_min (net : Net) (u : Str) :
    (scrape_http_core net u).success = true →
      ∃ c, (scrape_http_core net u).content = some c ∧ 500 ≤ c.length := by
  unfold scrape_http_core
  cases hg : net.get u with
  | ok content =>
    by_cases hlen : content.length < 500
    · simp [hlen]
    · simp [hlen]
      omega
  | timeout => simp
  | reqError =>
    by_cases hw : hasSub u (str "www.") = true
    · simp only [hw, if_true]
      cases hg2 : net.get (replaceAll u (str "://www.") (str "://")) with
      | ok c2 =>
        by_cases h2 : 500 ≤ c2.length
        · simp [h2]
        · simp [h2]
      | timeout => simp
      | reqError => simp
    · simp only [Bool.not_eq_true] at hw
      simp [hw]

/-- Success of the playwright stage body implies the threshold. -/
lemma scrape_playwright_core_min (net : Net) (u : Str) :
    (scrape_playwright_core net u).success = true →
      ∃ c, (scrape_playwright_core net u).content = some c ∧ 500 ≤ c.length := by
  unfold scrape_playwright_core
  by_cases hin : net.pwInstalled = false
  · simp [hin]
  · rw [if_neg hin]
    cases hp : net.pw u with
    | ok content =>
      by_cases hlen : content.length < 500
      · simp [hlen]
      · simp [hlen]
        omega
    | err =>
      by_cases hw : hasSub u (str "www.") = true
      · simp only [hw, if_true]
        cases hp2 : net.pw (replaceAll u (str "://www.") (str "://")) with
        | ok c2 =>
          by_cases h2 : 500 ≤ c2.length
          · simp [h2]
          · simp [h2]
        | err => simp
      · simp only [Bool.not_eq_true] at hw
        simp [hw]

/-- C5: whenever `scrape_http` or `scrape_playwright` reports success, the
returned content is at least 500 characters long; shorter retrievals are
reported as failures even when the transport succeeded. -/
theorem c5_success_min_content (net : Net) (url : Str) :
    ((scrape_http net url).success = true →
      ∃ c, (scrape_http net url).content = some c ∧ 500 ≤ c.length) ∧
    ((scrape_playwright net url).success = true →
      ∃ c, (scrape_playwright net url).content = some c ∧ 500 ≤ c.length) :=
  ⟨scrape_http_core_min net (normalize_url url),
   scrape_playwright_core_min net (normalize_url url)⟩

/-- Network where every HTTP request yields a 500-character page. -/
def netC5 : Net :=
  { get := fun _ => HttpOutcome.ok (List.replicate 500 'x'),
    pw := fun _ => PwOutcome.ok (List.replicate 500 'x'),
    pwInstalled := true }

set_option maxRecDepth 40000 in
/-- Witness for C5: a concrete successful fetch whose content meets the
threshold. -/
theorem c5_success_min_content_witness :
    ∃ c, (scrape_http netC5 (str "https://acme.com")).content = some c ∧
      500 ≤ c.length :=
  (c5_success_min_content netC5 (str "https://acme.com")).1 (by decide)

/-- Network for the C2 counterexample: the apex URL times out while its
`www.` twin would answer with a 600-character page; the headless stage
always fails. -/
def netC2c : Net :=
  { get := fun u =>
      if u == str "https://www.example.com" then HttpOutcome.ok (List.replicate 600 'y')
      else HttpOutcome.timeout,
    pw := fun _ => PwOutcome.err,
    pwInstalled := true }

set_option maxRecDepth 40000 in
/-- C2 counterexample: for an apex-domain URL that times out, the chain
never tries the `www.` twin (the source only strips `www.`, and a timeout
skips even that retry), so the whole chain fails instead of returning the
`www.` result with the `http` method. -/
theorem c2_counterexample :
    netC2c.get (str "https://www.example.com") =
      HttpOutcome.ok (List.replicate 600 'y') ∧
    netC2c.get (str "https://example.com") = HttpOutcome.timeout ∧
    scrape_chain netC2c (str "https://example.com") =
      ⟨false, none, str "bright_data"⟩ ∧
    scrape_chain netC2c (str "https://example.com") ≠
      ⟨true, some (List.replicate 600 'y'), str "http"⟩ := by decide

/-- C2 amended: the retry direction in the source is www-to-apex. When a
`www.`-prefixed URL fails with a non-timeout request error and the apex
twin answers with content of at least 500 characters, the chain returns
the apex content with the `http` method. -/
theorem c2_amended_www_strip (net : Net) (c : Str)
    (h1 : net.get (str "https://www.example.com") = HttpOutcome.reqError)
    (h2 : net.get (str "https://example.com") = HttpOutcome.ok c)
    (h3 : 500 ≤ c.length) :
    scrape_chain net (str "https://www.example.com") =
      ⟨true, some c, str "http"⟩ := by
  have hn : normalize_url (str "https://www.example.com") =
      str "https://www.example.com" := by decide
  have hw : hasSub (str "https://www.example.com") (str "www.") = true := by decide
  have hr : replaceAll (str "https://www.example.com") (str "://www.") (str "://") =
      str "https://example.com" := by decide
  have hhttp : scrape_http net (str "https://www.example.com") =
      ⟨true, some c, str "http"⟩ := by
    unfold scrape_http
    rw [hn]
    unfold scrape_http_core
    rw [h1, hw]
    simp only [if_true]
    rw [hr, h2]
    simp [h3]
  unfold scrape_chain
  rw [hhttp]
  simp

/-- Network witnessing the amended C2 behaviour. -/
def netC2w : Net :=
  { get := fun u =>
      if u == str "https://www.example.com" then HttpOutcome.reqError
      else HttpOutcome.ok (List.replicate 500 'z'),
    pw := fun _ => PwOutcome.err,
    pwInstalled := false }

set_option maxRecDepth 40000 in
/-- Witness for the amended C2 theorem at a concrete network. -/
theorem c2_amended_www_strip_witness :
    scrape_chain netC2w (str "https://www.example.com") =
      ⟨true, some (List.replicate 500 'z'), str "http"⟩ :=
  c2_amended_www_strip netC2w (List.replicate 500 'z') (by decide) (by decide)
    (by decide)

/-- Environment for C3: the navigator finds nothing and the AI
collaborator returns no jobs. -/
def envC3 : ExtractEnv := ⟨fun _ _ => [], fun _ _ => []⟩

/-- Network where every fetch stage fails. -/
def netC3fail : Net := ⟨fun _ => HttpOutcome.reqError, fun _ => PwOutcome.err, true⟩

/-- Network where the HTTP fetch succeeds with a 600-character page. -/
def netC3ok : Net :=
  ⟨fun _ => HttpOutcome.ok (List.replicate 600 'w'), fun _ => PwOutcome.err, true⟩

/-- A company with a careers URL, as fed to the extractor. -/
def companyC3 : Company :=
  ⟨str "Acme", str "https://acme.com/careers", str "https://acme.com", [], 0⟩

set_option maxRecDepth 40000 in
/-- C3 counterexample: when every fetch stage fails the company is simply
omitted from the result — exactly the same surfaced outcome as a company
whose page fetched fine but yielded zero jobs, so the two cases are not
distinguishable by the caller. -/
theorem c3_counterexample :
    (scrape_http netC3fail (str "https://acme.com/careers")).success = false ∧
    (scrape_playwright netC3fail (str "https://acme.com/careers")).success = false ∧
    (scrape_http netC3ok (str "https://acme.com/careers")).success = true ∧
    extract_jobs_from_companies envC3 netC3fail [companyC3] =
      extract_jobs_from_companies envC3 netC3ok [companyC3] ∧
    extract_jobs_from_companies envC3 netC3fail [companyC3] = [] := by decide

/-- Rewriting of the conditional filter used by the navigator-jobs path. -/
lemma filter_skip_empty (l : List Job) (p : Job → Bool) :
    (if l.isEmpty then l else l.filter p) = l.filter p := by
  cases l <;> simp

/-- C3 amended: a company whose fetch fails at every stage is omitted from
the returned list — the very outcome produced for a company whose page
fetched but yielded zero jobs; the two are indistinguishable in the return
value (they differ only in logging). -/
theorem c3_amended_indistinguishable (e1 e2 : ExtractEnv) (n1 n2 : Net) (c : Company)
    (h1 : e1.navJobs (effectiveUrl c) c.name = [])
    (h2 : (scrape_http n1 (effectiveUrl c)).success = false)
    (h3 : (scrape_playwright n1 (effectiveUrl c)).success = false)
    (h4 : e2.navJobs (effectiveUrl c) c.name = [])
    (h5 : ∀ body, ai_filter (e2.aiJobs body c.name) = []) :
    extract_jobs_from_companies e1 n1 [c] =
      extract_jobs_from_companies e2 n2 [c] := by
  have p1 : process_company e1 n1 c = none := by
    unfold process_company
    by_cases hu : (effectiveUrl c).isEmpty = true
    · simp [hu]
    · simp only [Bool.not_eq_true] at hu
      simp [hu, h1, h2, h3]
  have p2 : process_company e2 n2 c = none := by
    unfold process_company
    by_cases hu : (effectiveUrl c).isEmpty = true
    · simp [hu]
    · simp only [Bool.not_eq_true] at hu
      simp only [hu, if_false, h4, List.isEmpty_nil, List.filter_nil, ite_self,
        Bool.not_true, Bool.false_eq_true, if_false]
      split
      · rfl
      · rename_i body heq
        simp [h5 body]
  simp [extract_jobs_from_companies, p1, p2]

set_option maxRecDepth 40000 in
/-- Witness for the amended C3 theorem at concrete environments. -/
theorem c3_amended_indistinguishable_witness :
    extract_jobs_from_companies envC3 netC3fail [companyC3] =
      extract_jobs_from_companies envC3 netC3ok [companyC3] :=
  c3_amended_indistinguishable envC3 envC3 netC3fail netC3ok companyC3
    (by decide) (by decide) (by decide) (by decide) (fun _ => rfl)

/-- C1: a page whose visible body text contains "no current openings"
(case-insensitively) makes the crawl return an empty job list with the
no-jobs short-circuit fired, and the infinite-scroll and tab-traversal
steps are invoked zero times. -/
theorem c1_no_jobs_short_circuit (env : NavEnv) (t : Str)
    (hi : env.installed = true) (hg : env.gotoOk = true)
    (hb : env.page.bodyText = some t)
    (hp : hasSub (lowerL t) (str "no current openings") = true) :
    crawl_body env = Except.ok ⟨[], true, 0, 0⟩ ∧ find_job_urls env = [] := by
  have hcheck : check_no_jobs env.page = true := by
    unfold check_no_jobs
    rw [hb]
    simp [no_jobs_indicators, hp]
  have hbody : crawl_body env = Except.ok ⟨[], true, 0, 0⟩ := by
    unfold crawl_body
    simp [hi, hg, hcheck]
  refine ⟨hbody, ?_⟩
  unfold find_job_urls
  rw [hbody]

/-- Concrete page for the C1 witness. -/
def envC1 : NavEnv :=
  { installed := true, gotoOk := true,
    page :=
      { finalUrl := str "https://acme.com/careers",
        bodyText := some (str "Sorry - No Current Openings. Check our site soon."),
        iframeResults := [], expandable := [], aggregator := [], anchors := [] } }

/-- Witness for C1 at a concrete environment. -/
theorem c1_no_jobs_short_circuit_witness :
    crawl_body envC1 = Except.ok ⟨[], true, 0, 0⟩ ∧ find_job_urls envC1 = [] :=
  c1_no_jobs_short_circuit envC1
    (str "Sorry - No Current Openings. Check our site soon.")
    rfl rfl rfl (by decide)

/-- C10: for every browser environment — including a missing playwright
install or a raising launch/navigation — `find_job_urls` returns a list
and the explicit-handler variant never surfaces an error. -/
theorem c10_never_raises (env : NavEnv) :
    ∃ l : List Job, find_job_urls_handled env = Except.ok l ∧
      find_job_urls env = l := by
  unfold find_job_urls_handled find_job_urls
  cases h : crawl_body env with
  | ok r => exact ⟨r.jobs, rfl, rfl⟩
  | error e => exact ⟨[], rfl, rfl⟩

/-
Claim C4 compares the generic anchor classifier — the scheme rejections of
`_extract_job_links` (lines 383-388) combined with `_is_job_link` — with
the acceptance rule stated by the spec.
-/

/-- The generic anchor classifier as implemented: reject empty,
fragment-only, `javascript:` and `mailto:` hrefs, then apply
`_is_job_link` to the href, the stripped visible text and the resolved
URL. -/
def generic_anchor_accept (base href text : Str) : Bool :=
  if href.isEmpty || strStarts href (str "#") || strStarts href (str "javascript:") then
    false
  else if strStarts href (str "mailto:") then
    false
  else
    is_job_link href text (urljoin base href)

/-- The acceptance rule exactly as the claim words it: the exclusion
lexicon always vetoes a matching text, with no length condition on when
the lexicon applies. -/
def generic_anchor_accept_claimed (href text : Str) : Bool :=
  if href.isEmpty || strStarts href (str "#") || strStarts href (str "javascript:") ||
      strStarts href (str "mailto:") then
    false
  else
    (job_url_patterns.any (fun p => hasSub (lowerL href) p) && has_identifier href) ||
    (job_keywords.any (fun k => hasSub (lowerL text) k) &&
      !(exclude_keywords.any (fun k => hasSub (lowerL text) k)) &&
      decide (10 < text.length))

/-- The amended acceptance rule: identical to the claim except that the
exclusion lexicon is only consulted for texts shorter than 50 characters,
as in the source. -/
def generic_anchor_accept_amended (href text : Str) : Bool :=
  if href.isEmpty || strStarts href (str "#") || strStarts href (str "javascript:") ||
      strStarts href (str "mailto:") then
    false
  else
    (job_url_patterns.any (fun p => hasSub (lowerL href) p) && has_identifier href) ||
    (job_keywords.any (fun k => hasSub (lowerL text) k) &&
      !(decide (text.length < 50) &&
        exclude_keywords.any (fun k => hasSub (lowerL text) k)) &&
      decide (10 < text.length))

/-- A two-branch boolean acceptance chain is a disjunction. -/
lemma if_chain_or (a b : Bool) :
    (if a = true then true else if b = true then true else false) = (a || b) := by
  cases a <;> cases b <;> rfl

/-- The exclusion test written as a conjunction. -/
lemma is_excluded_eq (text : Str) :
    is_excluded text =
      (decide (text.length < 50) &&
        exclude_keywords.any (fun k => hasSub (lowerL text) k)) := by
  unfold is_excluded
  by_cases h : text.length < 50 <;> simp [h]

/-- C4 counterexample: a long anchor text that contains both the job
keyword "engineer" and the exclusion phrase "apply now" is accepted by the
source (the exclusion lexicon is skipped at length ≥ 50) but rejected by
the acceptance rule as the claim words it. -/
theorem c4_counterexample :
    generic_anchor_accept (str "https://acme.com/careers") (str "team")
      (str "We are hiring a software engineer, apply now to join our team") = true ∧
    generic_anchor_accept_claimed (str "team")
      (str "We are hiring a software engineer, apply now to join our team") = false := by
  decide

/-- C4 amended: the classifier accepts an anchor exactly when the claimed
rule holds with the exclusion lexicon restricted to texts shorter than 50
characters. -/
theorem c4_amended_classifier_rule (base href text : Str) :
    generic_anchor_accept base href text =
      generic_anchor_accept_amended href text := by
  unfold generic_anchor_accept generic_anchor_accept_amended is_job_link
  rw [is_excluded_eq]
  cases h1 : (href.isEmpty || strStarts href (str "#") ||
      strStarts href (str "javascript:")) with
  | true => simp [h1]
  | false =>
    cases h2 : strStarts href (str "mailto:") with
    | true => simp [h1, h2]
    | false =>
      simp only [h1, h2, Bool.or_false, Bool.false_eq_true, if_false]
      exact if_chain_or _ _

/-
Claims C6 and C7 concern the anchor loop of `_extract_job_links`. The
following lemmas characterise one loop step for an external-board anchor,
and the freshness of every emitted URL.
-/

/-- Greenhouse board URL stem used by C6. -/
def ghp : Str := str "https://boards.greenhouse.io/"

lemma ghp_cons : ghp = 'h' :: str "ttps://boards.greenhouse.io/" := by decide

lemma gh_not_empty (s : Str) : (ghp ++ s).isEmpty = false := by
  rw [ghp_cons]
  simp

lemma gh_not_hash (s : Str) : strStarts (ghp ++ s) (str "#") = false := by
  rw [ghp_cons]
  unfold strStarts
  have h : str "#" = '#' :: [] := by decide
  rw [h, List.cons_append]
  exact headNe_not_isPrefixOf '#' 'h' [] _ (by decide)

lemma gh_not_js (s : Str) : strStarts (ghp ++ s) (str "javascript:") = false := by
  rw [ghp_cons]
  unfold strStarts
  have h : str "javascript:" = 'j' :: str "avascript:" := by decide
  rw [h, List.cons_append]
  exact headNe_not_isPrefixOf 'j' 'h' _ _ (by decide)

lemma gh_not_mailto (s : Str) : strStarts (ghp ++ s) (str "mailto:") = false := by
  rw [ghp_cons]
  unfold strStarts
  have h : str "mailto:" = 'm' :: str "ailto:" := by decide
  rw [h, List.cons_append]
  exact headNe_not_isPrefixOf 'm' 'h' _ _ (by decide)

lemma gh_abs (s : Str) : strStarts (ghp ++ s) (str "https://") = true := by
  unfold strStarts
  exact isPrefixOf_append (str "https://") ghp s (by decide)

lemma gh_urljoin (base s : Str) : urljoin base (ghp ++ s) = ghp ++ s := by
  unfold urljoin
  rw [gh_not_empty, gh_abs]
  simp

lemma gh_board (s : Str) : isExternalJobBoard (ghp ++ s) = true := by
  unfold isExternalJobBoard
  have hl : lowerL (ghp ++ s) = ghp ++ lowerL s := by
    unfold lowerL
    rw [List.map_append]
    have : List.map lowerChar ghp = ghp := by decide
    rw [this]
  rw [hl]
  have h1 : hasSub (ghp ++ lowerL s) (str "greenhouse.io") = true :=
    hasSub_append ghp (lowerL s) (str "greenhouse.io") (by decide)
  simp [external_boards, h1]

/-- One loop step on an anchor that is an unseen external-board link. -/
lemma extractLoop_board (base : Str) (seen : List Str) (u t : Str)
    (rest : List Anchor)
    (h0 : u.isEmpty = false) (h1 : strStarts u (str "#") = false)
    (h2 : strStarts u (str "javascript:") = false)
    (h3 : strStarts u (str "mailto:") = false)
    (h4 : urljoin base u = u) (h5 : seen.contains u = false)
    (h6 : isDocumentLink u = false) (h7 : isExternalJobBoard u = true) :
    extractLoop base seen (⟨u, t⟩ :: rest) =
      ⟨extract_title_from_text (pyStrip t), u, descOf (pyStrip t)⟩ ::
        extractLoop base (u :: seen) rest := by
  have h5m : u ∉ seen := by simpa using h5
  simp [extractLoop, h0, h1, h2, h3, h4, h5m, h6, h7]

/-- With empty strategy inputs, `_extract_job_links` is just the anchor
loop started with an empty seen-set. -/
lemma extract_job_links_nil (base : Str) (anchors : List Anchor) :
    extract_job_links [] [] base anchors = extractLoop base [] anchors := by
  simp [extract_job_links]

/-- C6 amended: on a page where the on-page text scan and the aggregator
extractor contribute nothing, three anchors with distinct
`boards.greenhouse.io` URLs — none of which ends in a document extension —
produce exactly three candidates carrying those URLs, whatever the visible
anchor texts are. -/
theorem c6_amended_three_board_links (base s1 s2 s3 t1 t2 t3 : Str)
    (h12 : ghp ++ s1 ≠ ghp ++ s2) (h13 : ghp ++ s1 ≠ ghp ++ s3)
    (h23 : ghp ++ s2 ≠ ghp ++ s3)
    (d1 : isDocumentLink (ghp ++ s1) = false)
    (d2 : isDocumentLink (ghp ++ s2) = false)
    (d3 : isDocumentLink (ghp ++ s3) = false) :
    (extract_job_links [] [] base
        [⟨ghp ++ s1, t1⟩, ⟨ghp ++ s2, t2⟩, ⟨ghp ++ s3, t3⟩]).map
      (fun j => j.job_url) = [ghp ++ s1, ghp ++ s2, ghp ++ s3] := by
  rw [extract_job_links_nil]
  have c1 : ([] : List Str).contains (ghp ++ s1) = false := rfl
  have c2 : ([ghp ++ s1] : List Str).contains (ghp ++ s2) = false := by
    simp only [List.contains_cons, List.contains_nil, Bool.or_false]
    exact beq_eq_false_iff_ne.mpr (Ne.symm h12)
  have c3 : ([ghp ++ s2, ghp ++ s1] : List Str).contains (ghp ++ s3) = false := by
    simp only [List.contains_cons, List.contains_nil, Bool.or_false]
    rw [beq_eq_false_iff_ne.mpr (Ne.symm h23), beq_eq_false_iff_ne.mpr (Ne.symm h13)]
    rfl
  rw [extractLoop_board base [] (ghp ++ s1) t1 _ (gh_not_empty s1) (gh_not_hash s1)
    (gh_not_js s1) (gh_not_mailto s1) (gh_urljoin base s1) c1 d1 (gh_board s1)]
  rw [extractLoop_board base [ghp ++ s1] (ghp ++ s2) t2 _ (gh_not_empty s2)
    (gh_not_hash s2) (gh_not_js s2) (gh_not_mailto s2) (gh_urljoin base s2) c2 d2
    (gh_board s2)]
  rw [extractLoop_board base [ghp ++ s2, ghp ++ s1] (ghp ++ s3) t3 _
    (gh_not_empty s3) (gh_not_hash s3) (gh_not_js s3) (gh_not_mailto s3)
    (gh_urljoin base s3) c3 d3 (gh_board s3)]
  rfl

/-- Witness for the amended C6 theorem at concrete anchors. -/
theorem c6_amended_three_board_links_witness :
    (extract_job_links [] [] (str "https://acme.com/careers")
        [⟨ghp ++ str "acme/jobs/1", str "Backend Engineer"⟩,
         ⟨ghp ++ str "acme/jobs/2", str "Data Analyst"⟩,
         ⟨ghp ++ str "acme/jobs/3", str "Product Manager"⟩]).map
      (fun j => j.job_url) =
      [ghp ++ str "acme/jobs/1", ghp ++ str "acme/jobs/2", ghp ++ str "acme/jobs/3"] :=
  c6_amended_three_board_links (str "https://acme.com/careers")
    (str "acme/jobs/1") (str "acme/jobs/2") (str "acme/jobs/3")
    (str "Backend Engineer") (str "Data Analyst") (str "Product Manager")
    (by decide) (by decide) (by decide) (by decide) (by decide) (by decide)

/-- C6 counterexample: a page with exactly three anchors to distinct
`boards.greenhouse.io` URLs where one URL ends in `.pdf` and its text has
no job keyword — the document branch drops it, so only two candidates come
out, not three. -/
theorem c6_counterexample :
    (extract_job_links [] [] (str "https://acme.com/careers")
        [⟨str "https://boards.greenhouse.io/acme/jobs/1", str "Software Engineer"⟩,
         ⟨str "https://boards.greenhouse.io/acme/jobs/2", str "Data Analyst"⟩,
         ⟨str "https://boards.greenhouse.io/acme/jobs/brochure.pdf",
          str "Download our hiring brochure"⟩]).map (fun j => j.job_url) =
      [str "https://boards.greenhouse.io/acme/jobs/1",
       str "https://boards.greenhouse.io/acme/jobs/2"] ∧
    (extract_job_links [] [] (str "https://acme.com/careers")
        [⟨str "https://boards.greenhouse.io/acme/jobs/1", str "Software Engineer"⟩,
         ⟨str "https://boards.greenhouse.io/acme/jobs/2", str "Data Analyst"⟩,
         ⟨str "https://boards.greenhouse.io/acme/jobs/brochure.pdf",
          str "Download our hiring brochure"⟩]).length ≠ 3 := by decide

/-- Freshness invariant of the anchor loop: the emitted URLs are pairwise
distinct and none of them was already in the seen-set. -/
lemma extractLoop_urls_nodup (base : Str) :
    ∀ (anchors : List Anchor) (seen : List Str),
      ((extractLoop base seen anchors).map (fun j => j.job_url)).Nodup ∧
      ∀ u, u ∈ (extractLoop base seen anchors).map (fun j => j.job_url) →
        u ∉ seen := by
  intro anchors
  induction anchors with
  | nil =>
    intro seen
    simp [extractLoop]
  | cons a rest ih =>
    intro seen
    simp only [extractLoop]
    split
    · exact ih seen
    · split
      · exact ih seen
      · split
        · exact ih seen
        · rename_i hseen
          have hs : urljoin base a.href ∉ seen := by
            simpa using hseen
          split
          · split
            · refine ⟨?_, ?_⟩
              · rw [List.map_cons, List.nodup_cons]
                exact ⟨fun hmem =>
                    ((ih (urljoin base a.href :: seen)).2 _ hmem)
                      (List.mem_cons_self _ _),
                  (ih (urljoin base a.href :: seen)).1⟩
              · intro u hu
                rw [List.map_cons] at hu
                rcases List.mem_cons.mp hu with h | h
                · rw [h]; exact hs
                · exact fun hm =>
                    ((ih (urljoin base a.href :: seen)).2 u h)
                      (List.mem_cons_of_mem _ hm)
            · exact ih seen
          · split
            · refine ⟨?_, ?_⟩
              · rw [List.map_cons, List.nodup_cons]
                exact ⟨fun hmem =>
                    ((ih (urljoin base a.href :: seen)).2 _ hmem)
                      (List.mem_cons_self _ _),
                  (ih (urljoin base a.href :: seen)).1⟩
              · intro u hu
                rw [List.map_cons] at hu
                rcases List.mem_cons.mp hu with h | h
                · rw [h]; exact hs
                · exact fun hm =>
                    ((ih (urljoin base a.href :: seen)).2 u h)
                      (List.mem_cons_of_mem _ hm)
            · split
              · refine ⟨?_, ?_⟩
                · rw [List.map_cons, List.nodup_cons]
                  exact ⟨fun hmem =>
                      ((ih (urljoin base a.href :: seen)).2 _ hmem)
                        (List.mem_cons_self _ _),
                    (ih (urljoin base a.href :: seen)).1⟩
                · intro u hu
                  rw [List.map_cons] at hu
                  rcases List.mem_cons.mp hu with h | h
                  · rw [h]; exact hs
                  · exact fun hm =>
                      ((ih (urljoin base a.href :: seen)).2 u h)
                        (List.mem_cons_of_mem _ hm)
              · exact ih seen

/-- C7 amended: among anchor-derived candidates, every resolved URL is
emitted at most once — the first accepted anchor wins and later anchors
resolving to the same URL are skipped. (Exactly one is not guaranteed: a
duplicated URL yields zero candidates when no anchor for it classifies as
a job link.) -/
theorem c7_amended_dedup (base : Str) (anchors : List Anchor) :
    ((extract_job_links [] [] base anchors).map (fun j => j.job_url)).Nodup := by
  rw [extract_job_links_nil]
  exact (extractLoop_urls_nodup base anchors []).1

/-- C7 counterexample: two anchors with the identical href `/about` (hence
the same resolved URL) yield zero candidates, not exactly one — neither
anchor classifies as a job link. -/
theorem c7_counterexample :
    extract_job_links [] [] (str "https://acme.com/careers")
      [⟨str "/about", str "About"⟩, ⟨str "/about", str "About us"⟩] = [] := by
  decide

/-- Any company emitted by the extractor carries either the filtered
navigator jobs or an AI-filtered job list. -/
lemma process_company_some (env : ExtractEnv) (net : Net) (a c : Company)
    (h : process_company env net a = some c) :
    c.jobs = (env.navJobs (effectiveUrl a) a.name).filter
        (fun j => !j.job_url.isEmpty && !strStarts j.job_url (str "mailto:")) ∨
    ∃ body, c.jobs = ai_filter (env.aiJobs body a.name) := by
  simp only [process_company] at h
  rw [filter_skip_empty] at h
  split at h
  · simp at h
  · split at h
    · left
      rw [← Option.some.inj h]
    · split at h
      · simp at h
      · rename_i body heq
        split at h
        · right
          exact ⟨body, by rw [← Option.some.inj h]⟩
        · simp at h

/-- C8: no job in the final output of the extractor carries a `mailto:`
URL, whatever the crawler, the network and the AI collaborator returned —
both the navigator path and the AI path filter email-scheme URLs out. -/
theorem c8_no_mailto (env : ExtractEnv) (net : Net) (cs : List Company)
    (c : Company) (j : Job)
    (hc : c ∈ extract_jobs_from_companies env net cs)
    (hj : j ∈ c.jobs) :
    strStarts j.job_url (str "mailto:") = false := by
  unfold extract_jobs_from_companies at hc
  rcases List.mem_filterMap.mp hc with ⟨a, _, hp⟩
  rcases process_company_some env net a c hp with h | ⟨body, h⟩
  · rw [h] at hj
    have hpred := (List.mem_filter.mp hj).2
    simp only [Bool.and_eq_true, Bool.not_eq_true'] at hpred
    exact hpred.2
  · rw [h] at hj
    have hpred := (List.mem_filter.mp hj).2
    simp only [ai_filter] at hpred
    simp only [Bool.and_eq_true, Bool.not_eq_true', Bool.or_eq_false_iff] at hpred
    exact hpred.2.1.2

/-- Environment for the C8 witness: the navigator finds one valid job. -/
def envC8 : ExtractEnv :=
  ⟨fun _ _ => [⟨str "Platform Engineer", str "https://acme.com/jobs/42", []⟩],
   fun _ _ => []⟩

/-- Offline network for the C8 witness. -/
def netC8 : Net := ⟨fun _ => HttpOutcome.reqError, fun _ => PwOutcome.err, false⟩

/-- Input company for the C8 witness. -/
def companyC8 : Company :=
  ⟨str "Acme", str "https://acme.com/careers", str "https://acme.com", [], 0⟩

/-- Output company for the C8 witness. -/
def companyC8out : Company :=
  ⟨str "Acme", str "https://acme.com/careers", str "https://acme.com",
   [⟨str "Platform Engineer", str "https://acme.com/jobs/42", []⟩], 1⟩

/-- Witness for C8 at a concrete run of the extractor. -/
theorem c8_no_mailto_witness :
    strStarts (str "https://acme.com/jobs/42") (str "mailto:") = false :=
  c8_no_mailto envC8 netC8 [companyC8] companyC8out
    ⟨str "Platform Engineer", str "https://acme.com/jobs/42", []⟩
    (by decide) (by decide)

end Crawler
